import Mathlib

/-!
Verification of `src/nasdaq_web_scraper.py`.

The script is a linear fetch → parse → extract → write pipeline.  The external
libraries (requests, BeautifulSoup, spaCy) are modelled as explicit parameters:
`net` gives the outcome of the single HTTP GET, `parse` turns the response body
into a parsed document, and `nlp` is the named-entity recognizer.  Python
exceptions are modelled with `Except`, and the resolution of the global name
`logger` is modelled with an explicit environment of bound global names.
-/

namespace NasdaqWebScraper

/-- One named-entity span produced by the spaCy pipeline: its surface text
(`ent.text`) and its label (`ent.label_`). -/
structure Entity where
  text : String
  label_ : String
deriving DecidableEq

/-- A parsed HTML document (`BeautifulSoup(response.text, 'html.parser')`),
abstracted as the association of each CSS selector with the raw `.text` of the
first element matching it; a selector absent from the list matches no element. -/
def Soup : Type := List (String × String)

/-- `soup.select_one(sel)`, returning the `.text` of the first matching element. -/
def select_one (soup : Soup) (sel : String) : Option String :=
  (List.find? (fun p => p.1 == sel) soup).map (fun p => p.2)

/-- The configuration dictionary passed to `extract_info`: a content selector and
a metadata sub-mapping from field name to selector. -/
structure Config where
  content_selector : String
  metadata : List (String × String)

/-- One HTTP request as issued by `requests.get(url, timeout=10, headers=headers)`. -/
structure Request where
  url : String
  timeout : Nat
  headers : List (String × String)
deriving DecidableEq

/-- Outcome of `requests.get` followed by `response.raise_for_status()`:
either the response body text, or one of the exceptions caught at lines 63-74. -/
inductive FetchOutcome where
  | success (html : String)
  | httpError (msg : String)
  | timeoutError (msg : String)
  | connectionError (msg : String)
  | otherError (msg : String)
deriving DecidableEq

/-- The Python exceptions the embedding tracks: unresolved global names
(`NameError`), missing dictionary keys (`KeyError`), and file-system failures
(`IOError`). -/
inductive PyErr where
  | nameError (name : String)
  | keyError (key : String)
  | ioError (msg : String)
deriving DecidableEq

/-- The dictionary returned by `extract_info`.  A field is `some` exactly when
the corresponding key is present in the Python dict. -/
structure InfoDict where
  error : Option String := none
  content : Option String := none
  metadata : Option (List (String × String)) := none
  company_names : Option (List String) := none
deriving DecidableEq

/-- The keys present in an `InfoDict`, in the order the source constructs them. -/
def InfoDict.keys (d : InfoDict) : List String :=
  (if d.error.isSome then ["error"] else []) ++
  (if d.content.isSome then ["content"] else []) ++
  (if d.metadata.isSome then ["metadata"] else []) ++
  (if d.company_names.isSome then ["company_names"] else [])

/-- The error-result shape `{"error": message}` returned on every failed fetch. -/
def errorDict (msg : String) : InfoDict := { error := some msg }

/-- Global names bound at module scope of `nasdaq_web_scraper.py`: the imports
(lines 1-11) and the two function definitions.  `logger` is not among them. -/
def moduleEnv : List String :=
  ["requests", "HTTPError", "Timeout", "ConnectionError", "BeautifulSoup", "nltk",
   "word_tokenize", "pos_tag", "pd", "StringIO", "spacy", "logging", "json",
   "write_to_file", "extract_info"]

/-- Global names bound once the `if __name__ == '__main__':` block has started
running past line 92: the module-scope names plus `logger`. -/
def mainEnv : List String := moduleEnv ++ ["logger"]

/-- The request issued at line 61 for a given URL:
`requests.get(url, timeout=10, headers={'User-Agent': 'Mozilla/5.0'})`. -/
def theRequest (url : String) : Request :=
  { url := url, timeout := 10, headers := [("User-Agent", "Mozilla/5.0")] }

/-- Line 77: text of the first element matching the content selector, or the
fixed placeholder when nothing matches. -/
def article_content (soup : Soup) (config : Config) : String :=
  match select_one soup config.content_selector with
  | some t => t
  | none => "Content not available"

/-- Lines 78-81: the metadata dict, one trimmed entry per configured field, with
a field-specific placeholder when the selector matches nothing. -/
def metadata_of (soup : Soup) (config : Config) : List (String × String) :=
  config.metadata.map (fun p =>
    (p.1, match select_one soup p.2 with
          | some t => t.trim
          | none => p.1 ++ " not available"))

/-- Lines 82-83: the texts of the entity spans labeled `'ORG'`, in document order. -/
def org_texts (nlp : String → List Entity) (text : String) : List String :=
  ((nlp text).filter (fun e => e.label_ == "ORG")).map Entity.text

/-- `extract_info(url, config)`, lines 45-88.  `env` is the set of bound global
names (line 57 resolves the name `logger` before anything else happens); `net`
gives the outcome of the single `requests.get` call; `parse` and `nlp` stand for
BeautifulSoup and the spaCy model.  Returns the Python result (or the uncaught
exception) together with the list of HTTP requests issued, in order. -/
def extract_info (env : List String) (url : String)
    (net : Request → FetchOutcome) (parse : String → Soup)
    (nlp : String → List Entity) (config : Config) :
    Except PyErr InfoDict × List Request :=
  if "logger" ∈ env then
    let req := theRequest url
    match net req with
    | .httpError m => (.ok (errorDict ("HTTP error occurred: " ++ m)), [req])
    | .timeoutError m => (.ok (errorDict ("Timeout error: " ++ m)), [req])
    | .connectionError m => (.ok (errorDict ("Connection error: " ++ m)), [req])
    | .otherError m => (.ok (errorDict ("An error occurred: " ++ m)), [req])
    | .success html =>
      let soup := parse html
      let content := article_content soup config
      (.ok { error := none, content := some content,
             metadata := some (metadata_of soup config),
             company_names := some (org_texts nlp content).dedup }, [req])
  else
    (.error (.nameError "logger"), [])

/-- `data['metadata'].get(key, 'Not Available')`-style lookup with a default. -/
def dictGet (m : List (String × String)) (key dflt : String) : String :=
  (List.lookup key m).getD dflt

/-- The `for name in data['company_names']` loop (lines 34-35): one
`- <name>` line per element, in iteration order. -/
def namesText : List String → String
  | [] => ""
  | name :: rest => ("- " ++ name ++ "\n") ++ namesText rest

/-- The exact text written by the body of `write_to_file` (lines 33-41): the
four sections for company names, publication time, author and topics. -/
def fileText (names : List String) (metadata : List (String × String)) : String :=
  "Company Company/Stock Names:\n"
    ++ namesText names
    ++ "\nPublication Time:\n"
    ++ ("- " ++ dictGet metadata "publication_timestamp" "Not Available" ++ "\n")
    ++ "\nAuthor:\n"
    ++ ("- " ++ dictGet metadata "author" "Not Available" ++ "\n")
    ++ "\nTopics:\n"
    ++ ("- " ++ dictGet metadata "topics" "Not Available" ++ "\n")

/-- Whether `open(file_path, 'w')` (and the subsequent writes) succeed, or raise
an `IOError` (e.g. permission denied on an unwritable path). -/
inductive IOOutcome where
  | ok
  | ioError (msg : String)
deriving DecidableEq

/-- Observable effects of a completed `write_to_file` call: the file content
left on disk (when written) and the diagnostic printed to stdout (when any). -/
structure WriteResult where
  written : Option String
  printed : Option String
deriving DecidableEq

/-- The `try` block of `write_to_file` (lines 32-41): open the file, then the
subscripts `data['company_names']` and `data['metadata']` (each raising
`KeyError` when the key is absent), then the writes producing `fileText`. -/
def write_body (data : InfoDict) (io : IOOutcome) : Except PyErr String :=
  match io with
  | .ioError m => .error (.ioError m)
  | .ok =>
    match data.company_names with
    | none => .error (.keyError "company_names")
    | some names =>
      match data.metadata with
      | none => .error (.keyError "metadata")
      | some metadata => .ok (fileText names metadata)

/-- `write_to_file(data, file_path)`, lines 13-43: `except IOError` prints a
diagnostic and swallows the failure; any other exception propagates. -/
def write_to_file (data : InfoDict) (io : IOOutcome) : Except PyErr WriteResult :=
  match write_body data io with
  | .ok content => .ok { written := some content, printed := none }
  | .error (.ioError m) =>
      .ok { written := none, printed := some ("Error writing to file: " ++ m) }
  | .error e => .error e

/-- The print events of the `__main__` driver: `print(info)` prints the whole
dictionary, the other prints emit strings. -/
inductive PrintEvent where
  | infoDict (d : InfoDict)
  | msg (s : String)
deriving DecidableEq

/-- Observable effects of a completed driver run. -/
structure DriverEffects where
  printed : List PrintEvent
  written : Option String
  calledWrite : Bool
deriving DecidableEq

/-- The hardcoded configuration of the driver, lines 93-99. -/
def main_config : Config :=
  { content_selector := "div.body__content",
    metadata :=
      [("publication_timestamp", "p.jupiter22-c-author-byline__timestamp"),
       ("author", "span.jupiter22-c-author-byline__author-no-link")] }

/-- The hardcoded URL of the driver, line 100. -/
def main_url : String :=
  "https://www.nasdaq.com/articles/should-investors-buy-the-artificial-intelligence-technology-etf-instead-of-individual-ai"

/-- The `__main__` block, lines 90-112: call `extract_info`, print the result,
then either write the file (guarded by `'error' not in info`) or print the error
message.  Lines 104-106 subscript `info['company_names']` and `info['metadata']`
before writing. -/
def main_driver (net : Request → FetchOutcome) (parse : String → Soup)
    (nlp : String → List Entity) (io : IOOutcome) : Except PyErr DriverEffects :=
  match (extract_info mainEnv main_url net parse nlp main_config).1 with
  | .error e => .error e
  | .ok info =>
    if info.error.isNone then
      match info.company_names, info.metadata with
      | none, _ => .error (.keyError "company_names")
      | some _, none => .error (.keyError "metadata")
      | some _, some _ =>
        match write_to_file info io with
        | .error e => .error e
        | .ok wr =>
          .ok { printed := [.infoDict info] ++ wr.printed.toList.map PrintEvent.msg
                  ++ [.msg "Data successfully written to extracted_data.txt"],
                written := wr.written, calledWrite := true }
    else
      .ok { printed := [.infoDict info, .msg (info.error.getD "")],
            written := none, calledWrite := false }

/-! ### Observers used in the statements -/

/-- Split a character list at each newline; the result always ends with the
(possibly empty) run after the last newline. -/
def splitNl : List Char → List (List Char)
  | [] => [[]]
  | c :: cs =>
    if c = '\n' then [] :: splitNl cs
    else
      match splitNl cs with
      | l :: ls => (c :: l) :: ls
      | [] => [[c]]

/-- The lines of a string, as a file reader would see them. -/
def textLines (s : String) : List String := (splitNl s.data).map String.mk

/-- The lines the writer is specified to produce, in order: the header, one
`- <name>` line per company name, then the three metadata sections. -/
def write_lines (names : List String) (metadata : List (String × String)) : List String :=
  "Company Company/Stock Names:" :: (names.map (fun name => "- " ++ name))
    ++ ["", "Publication Time:", "- " ++ dictGet metadata "publication_timestamp" "Not Available",
        "", "Author:", "- " ++ dictGet metadata "author" "Not Available",
        "", "Topics:", "- " ++ dictGet metadata "topics" "Not Available"]

/-- The error message `extract_info` builds for each failing fetch outcome
(lines 63-74), `none` on success. -/
def failMsg : FetchOutcome → Option String
  | .success _ => none
  | .httpError m => some ("HTTP error occurred: " ++ m)
  | .timeoutError m => some ("Timeout error: " ++ m)
  | .connectionError m => some ("Connection error: " ++ m)
  | .otherError m => some ("An error occurred: " ++ m)

/-! ### Concrete fixtures used by the witnesses -/

/-- A parser fixture: every document resolves the driver content selector to a
fixed sentence and one timestamp selector to a padded date. -/
def sampleParse : String → Soup := fun _ =>
  [("div.body__content", "Acme Corp announced a deal with Globex Inc today."),
   ("p.ts", " Jan 1, 2024 ")]

/-- A recognizer fixture with a repeated ORG span and one non-ORG span. -/
def sampleNlp : String → List Entity := fun _ =>
  [⟨"Acme Corp", "ORG"⟩, ⟨"Globex Inc", "ORG"⟩, ⟨"Jane Doe", "PERSON"⟩, ⟨"Acme Corp", "ORG"⟩]

/-- A network fixture whose single request succeeds. -/
def sampleNet : Request → FetchOutcome := fun _ => .success "<html>"

/-- A network fixture whose single request fails with a connection error. -/
def failNet : Request → FetchOutcome := fun _ => .connectionError "refused"

/-- A configuration fixture matching the parser fixture. -/
def sampleConfig : Config :=
  { content_selector := "div.body__content",
    metadata := [("publication_timestamp", "p.ts"), ("author", "span.author")] }

/-! ### Helper lemmas -/

theorem splitNl_append (l rest : List Char) (h : ('\n') ∉ l) :
    splitNl (l ++ '\n' :: rest) = l :: splitNl rest := by
  induction l with
  | nil => simp [splitNl]
  | cons c cs ih =>
    simp only [List.mem_cons, not_or] at h
    have hc : ¬ c = '\n' := fun hc => h.1 hc.symm
    simp only [List.cons_append, splitNl, if_neg hc, List.append_eq]
    rw [ih h.2]

theorem textLines_line_append (s t : String) (h : ('\n') ∉ s.data) :
    textLines (s ++ "\n" ++ t) = s :: textLines t := by
  unfold textLines
  have hd : (s ++ "\n" ++ t).data = s.data ++ '\n' :: t.data := by
    simp [String.data_append]
  rw [hd, splitNl_append _ _ h, List.map_cons]

theorem textLines_empty : textLines "" = [""] := rfl

theorem namesText_append (names : List String) (t : String)
    (h : ∀ n ∈ names, ('\n') ∉ n.data) :
    textLines (namesText names ++ t) = names.map (fun n => "- " ++ n) ++ textLines t := by
  induction names with
  | nil =>
    simp only [namesText, List.map_nil, List.nil_append]
    rw [String.empty_append]
  | cons n ns ih =>
    have h1 : ('\n') ∉ ("- " ++ n).data := by
      rw [String.data_append]
      intro hc
      rcases List.mem_append.mp hc with hc | hc
      · simp at hc
      · exact h n (List.mem_cons_self n ns) hc
    have e : namesText (n :: ns) ++ t = ("- " ++ n) ++ "\n" ++ (namesText ns ++ t) := by
      simp only [namesText, String.append_assoc]
    rw [e, textLines_line_append _ _ h1, ih (fun m hm => h m (List.mem_cons_of_mem n hm))]
    simp

theorem textLines_fileText (names : List String) (metadata : List (String × String))
    (h : ∀ l ∈ write_lines names metadata, ('\n') ∉ l.data) :
    textLines (fileText names metadata) = write_lines names metadata ++ [""] := by
  have hn : ∀ n ∈ names, ('\n') ∉ n.data := by
    intro n hn hc
    refine h ("- " ++ n) ?_ ?_
    · unfold write_lines
      exact List.mem_cons_of_mem _ (List.mem_append_left _ (List.mem_map_of_mem _ hn))
    · rw [String.data_append]
      exact List.mem_append.mpr (Or.inr hc)
  have hv1 : ('\n') ∉ ("- " ++ dictGet metadata "publication_timestamp" "Not Available").data :=
    h _ (by simp [write_lines])
  have hv2 : ('\n') ∉ ("- " ++ dictGet metadata "author" "Not Available").data :=
    h _ (by simp [write_lines])
  have hv3 : ('\n') ∉ ("- " ++ dictGet metadata "topics" "Not Available").data :=
    h _ (by simp [write_lines])
  have e1 : fileText names metadata =
      "Company Company/Stock Names:" ++ "\n"
      ++ (namesText names
      ++ ("" ++ "\n" ++ ("Publication Time:" ++ "\n"
      ++ (("- " ++ dictGet metadata "publication_timestamp" "Not Available") ++ "\n"
      ++ ("" ++ "\n" ++ ("Author:" ++ "\n"
      ++ (("- " ++ dictGet metadata "author" "Not Available") ++ "\n"
      ++ ("" ++ "\n" ++ ("Topics:" ++ "\n"
      ++ (("- " ++ dictGet metadata "topics" "Not Available") ++ "\n" ++ "")))))))))) := by
    simp only [fileText, String.append_assoc, String.empty_append, String.append_empty]
    rfl
  rw [e1, textLines_line_append _ _ (by decide), namesText_append _ _ hn,
      textLines_line_append _ _ (by decide), textLines_line_append _ _ (by decide),
      textLines_line_append _ _ hv1,
      textLines_line_append _ _ (by decide), textLines_line_append _ _ (by decide),
      textLines_line_append _ _ hv2,
      textLines_line_append _ _ (by decide), textLines_line_append _ _ (by decide),
      textLines_line_append _ _ hv3, textLines_empty]
  simp [write_lines]

theorem lookup_map_value (f : String → String → String) (l : List (String × String)) (k : String) :
    List.lookup k (l.map (fun p => (p.1, f p.1 p.2))) = (List.lookup k l).map (f k) := by
  induction l with
  | nil => rfl
  | cons p t ih =>
    cases p with
    | mk a b =>
      by_cases hk : k = a
      · subst hk
        simp [List.lookup]
      · have hb : (k == a) = false := by simp [hk]
        simp [List.lookup, hb, ih]

/-! ### The claims -/

/-- Claim C10: `extract_info` resolves the global name `logger` at line 57, and
module scope does not bind that name — only the `__main__` block does.  Called
with only the module-scope globals (e.g. right after an import of the module),
it raises a `NameError` before any network request is attempted. -/
theorem c10_logger_unbound_name_error :
    "logger" ∉ moduleEnv ∧ "logger" ∈ mainEnv ∧
    ∀ (url : String) (net : Request → FetchOutcome) (parse : String → Soup)
      (nlp : String → List Entity) (config : Config),
      extract_info moduleEnv url net parse nlp config = (.error (.nameError "logger"), []) := by
  refine ⟨by decide, by decide, fun url net parse nlp config => ?_⟩
  simp only [extract_info, if_neg (show ¬ ("logger" ∈ moduleEnv) by decide)]

/-- Claim C8: whenever `extract_info` runs at all (the name `logger` resolves),
it issues exactly one GET request — for the given URL, with timeout 10 and the
single header `User-Agent: Mozilla/5.0` — whatever the outcome of that request,
so it never retries a failed request. -/
theorem c8_single_request (env : List String) (url : String)
    (net : Request → FetchOutcome) (parse : String → Soup)
    (nlp : String → List Entity) (config : Config)
    (hlog : "logger" ∈ env) :
    (extract_info env url net parse nlp config).2 =
      [{ url := url, timeout := 10, headers := [("User-Agent", "Mozilla/5.0")] }] := by
  cases h : net (theRequest url) <;>
    simp only [theRequest] at h <;>
    simp [extract_info, hlog, h, theRequest]

/-- Witness for C8 at a concrete environment, URL and network. -/
theorem c8_single_request_witness :
    (extract_info ["logger"] "u" sampleNet sampleParse sampleNlp sampleConfig).2 =
      [{ url := "u", timeout := 10, headers := [("User-Agent", "Mozilla/5.0")] }] :=
  c8_single_request ["logger"] "u" sampleNet sampleParse sampleNlp sampleConfig (by decide)

/-- Claim C6: when the write fails with an `IOError` (for any input data and
any message, e.g. permission denied), `write_to_file` returns normally — no
exception propagates to the caller — nothing is written, and the only
observable signal is the printed diagnostic. -/
theorem c6_write_ioerror_swallowed (data : InfoDict) (msg : String) :
    write_to_file data (.ioError msg) =
      .ok { written := none, printed := some ("Error writing to file: " ++ msg) } := rfl

/-- Claim C5: on success-shaped data, `write_to_file` overwrites the file with
the fixed four-section layout `fileText`, whose lines are exactly the header,
one `- <name>` line per element of the company-name set, and the three metadata
sections with `- Not Available` for each missing field; in particular, for the
company-name set `{"Acme Corp"}` with empty metadata, the file has exactly one
`- Acme Corp` line and one `- Not Available` line per missing field. -/
theorem c5_write_layout (c : Option String) (names : List String)
    (metadata : List (String × String))
    (h : ∀ l ∈ write_lines names metadata, ('\n') ∉ l.data) :
    write_to_file { error := none, content := c, metadata := some metadata,
                    company_names := some names } .ok
        = .ok { written := some (fileText names metadata), printed := none }
    ∧ textLines (fileText names metadata) = write_lines names metadata ++ [""]
    ∧ (textLines (fileText ["Acme Corp"] [])).count "- Acme Corp" = 1
    ∧ (textLines (fileText ["Acme Corp"] [])).count "- Not Available" = 3 :=
  ⟨rfl, textLines_fileText names metadata h, by decide, by decide⟩

/-- Witness for C5 on the company-name set `{"Acme Corp"}` and empty metadata. -/
theorem c5_write_layout_witness :
    write_to_file { error := none, content := none, metadata := some [],
                    company_names := some ["Acme Corp"] } .ok
        = .ok { written := some (fileText ["Acme Corp"] []), printed := none }
    ∧ textLines (fileText ["Acme Corp"] []) = write_lines ["Acme Corp"] [] ++ [""]
    ∧ (textLines (fileText ["Acme Corp"] [])).count "- Acme Corp" = 1
    ∧ (textLines (fileText ["Acme Corp"] [])).count "- Not Available" = 3 :=
  c5_write_layout none ["Acme Corp"] [] (by decide)

/-- Claim C1: when the single fetch fails in any of the four caught ways,
`extract_info` returns (never raises) a dictionary whose only key is `"error"`,
carrying the descriptive message for that failure, and the result does not
depend on the parser or the entity recognizer — no parsing, metadata
extraction, or entity recognition takes place. -/
theorem c1_fetch_failure_error_result (env : List String) (url : String)
    (net : Request → FetchOutcome) (parse : String → Soup)
    (nlp : String → List Entity) (config : Config)
    (hlog : "logger" ∈ env)
    (hfail : ∀ html, net (theRequest url) ≠ .success html) :
    ∃ msg, failMsg (net (theRequest url)) = some msg
      ∧ (extract_info env url net parse nlp config).1 = .ok (errorDict msg)
      ∧ (errorDict msg).keys = ["error"]
      ∧ ∀ (parse2 : String → Soup) (nlp2 : String → List Entity),
          extract_info env url net parse nlp config =
            extract_info env url net parse2 nlp2 config := by
  cases h : net (theRequest url) with
  | success html => exact absurd h (hfail html)
  | httpError m =>
    exact ⟨_, rfl, by simp [extract_info, hlog, h], by simp [errorDict, InfoDict.keys],
      fun p2 n2 => by simp [extract_info, hlog, h]⟩
  | timeoutError m =>
    exact ⟨_, rfl, by simp [extract_info, hlog, h], by simp [errorDict, InfoDict.keys],
      fun p2 n2 => by simp [extract_info, hlog, h]⟩
  | connectionError m =>
    exact ⟨_, rfl, by simp [extract_info, hlog, h], by simp [errorDict, InfoDict.keys],
      fun p2 n2 => by simp [extract_info, hlog, h]⟩
  | otherError m =>
    exact ⟨_, rfl, by simp [extract_info, hlog, h], by simp [errorDict, InfoDict.keys],
      fun p2 n2 => by simp [extract_info, hlog, h]⟩

/-- Witness for C1 on a connection failure. -/
theorem c1_fetch_failure_error_result_witness :
    ∃ msg, failMsg (failNet (theRequest "u")) = some msg
      ∧ (extract_info ["logger"] "u" failNet sampleParse sampleNlp sampleConfig).1
          = .ok (errorDict msg)
      ∧ (errorDict msg).keys = ["error"]
      ∧ ∀ (parse2 : String → Soup) (nlp2 : String → List Entity),
          extract_info ["logger"] "u" failNet sampleParse sampleNlp sampleConfig =
            extract_info ["logger"] "u" failNet parse2 nlp2 sampleConfig :=
  c1_fetch_failure_error_result ["logger"] "u" failNet sampleParse sampleNlp sampleConfig
    (by decide) (fun html h => by simp [failNet] at h)

/-- Claim C2: on a successful fetch, the `company_names` value is present and is
the set of the `"ORG"`-labeled entity texts: it has no duplicate entries, and a
string belongs to it exactly when it is the text of some ORG-labeled span —
dedup is by exact string match, with no case normalization, however often a
text repeats. -/
theorem c2_company_names_dedup (env : List String) (url : String)
    (net : Request → FetchOutcome) (parse : String → Soup)
    (nlp : String → List Entity) (config : Config)
    (hlog : "logger" ∈ env) (html : String)
    (hnet : net (theRequest url) = .success html) :
    ∃ names : List String,
      (∃ c m, (extract_info env url net parse nlp config).1 =
          .ok { error := none, content := some c, metadata := some m,
                company_names := some names })
      ∧ names.Nodup
      ∧ (∀ s, s ∈ names ↔ s ∈ org_texts nlp (article_content (parse html) config)) := by
  refine ⟨(org_texts nlp (article_content (parse html) config)).dedup,
    ⟨article_content (parse html) config, metadata_of (parse html) config, ?_⟩,
    List.nodup_dedup _, fun s => List.mem_dedup⟩
  simp [extract_info, hlog, hnet]

/-- Witness for C2 on the sample fixtures (the recognizer repeats `Acme Corp`). -/
theorem c2_company_names_dedup_witness :
    ∃ names : List String,
      (∃ c m, (extract_info ["logger"] "u" sampleNet sampleParse sampleNlp sampleConfig).1 =
          .ok { error := none, content := some c, metadata := some m,
                company_names := some names })
      ∧ names.Nodup
      ∧ (∀ s, s ∈ names ↔
          s ∈ org_texts sampleNlp (article_content (sampleParse "<html>") sampleConfig)) :=
  c2_company_names_dedup ["logger"] "u" sampleNet sampleParse sampleNlp sampleConfig
    (by decide) "<html>" rfl

/-- Claim C3: on a successful fetch whose document has no element matching the
configured content selector, the `content` field of the result equals the
literal placeholder `"Content not available"`. -/
theorem c3_content_placeholder (env : List String) (url : String)
    (net : Request → FetchOutcome) (parse : String → Soup)
    (nlp : String → List Entity) (config : Config)
    (hlog : "logger" ∈ env) (html : String)
    (hnet : net (theRequest url) = .success html)
    (hsel : select_one (parse html) config.content_selector = none) :
    ∃ d : InfoDict, (extract_info env url net parse nlp config).1 = .ok d
      ∧ d.content = some "Content not available" := by
  refine ⟨{ error := none, content := some (article_content (parse html) config),
            metadata := some (metadata_of (parse html) config),
            company_names := some (org_texts nlp (article_content (parse html) config)).dedup },
          by simp [extract_info, hlog, hnet], ?_⟩
  simp [article_content, hsel]

/-- Witness for C3 with a selector the sample document does not contain. -/
theorem c3_content_placeholder_witness :
    ∃ d : InfoDict,
      (extract_info ["logger"] "u" sampleNet sampleParse sampleNlp
          { content_selector := "div.missing", metadata := [] }).1 = .ok d
      ∧ d.content = some "Content not available" :=
  c3_content_placeholder ["logger"] "u" sampleNet sampleParse sampleNlp
    { content_selector := "div.missing", metadata := [] } (by decide) "<html>" rfl rfl

/-- Claim C4: on a successful fetch, the metadata of the result is exactly
`metadata_of`, and for every field name its value is the trimmed text of the
first element matching the field selector, or the field-specific placeholder
`"<field> not available"` when nothing matches. -/
theorem c4_metadata_fields (env : List String) (url : String)
    (net : Request → FetchOutcome) (parse : String → Soup)
    (nlp : String → List Entity) (config : Config)
    (hlog : "logger" ∈ env) (html : String)
    (hnet : net (theRequest url) = .success html) :
    (∃ c names, (extract_info env url net parse nlp config).1 =
        .ok { error := none, content := some c,
              metadata := some (metadata_of (parse html) config),
              company_names := some names })
    ∧ (∀ key, List.lookup key (metadata_of (parse html) config) =
        (List.lookup key config.metadata).map (fun sel =>
          match select_one (parse html) sel with
          | some t => t.trim
          | none => key ++ " not available")) := by
  constructor
  · exact ⟨article_content (parse html) config,
      (org_texts nlp (article_content (parse html) config)).dedup,
      by simp [extract_info, hlog, hnet]⟩
  · intro key
    simp only [metadata_of]
    exact lookup_map_value
      (fun k sel => match select_one (parse html) sel with
        | some t => t.trim
        | none => k ++ " not available") config.metadata key

/-- Witness for C4 on the sample fixtures (one selector hits, one misses). -/
theorem c4_metadata_fields_witness :
    (∃ c names, (extract_info ["logger"] "u" sampleNet sampleParse sampleNlp sampleConfig).1 =
        .ok { error := none, content := some c,
              metadata := some (metadata_of (sampleParse "<html>") sampleConfig),
              company_names := some names })
    ∧ (∀ key, List.lookup key (metadata_of (sampleParse "<html>") sampleConfig) =
        (List.lookup key sampleConfig.metadata).map (fun sel =>
          match select_one (sampleParse "<html>") sel with
          | some t => t.trim
          | none => key ++ " not available")) :=
  c4_metadata_fields ["logger"] "u" sampleNet sampleParse sampleNlp sampleConfig
    (by decide) "<html>" rfl

/-- Claim C9: on a successful fetch, the result dictionary has exactly the keys
`content`, `metadata` and `company_names`, and its metadata mapping has exactly
the field names of the configuration's metadata sub-mapping, in order. -/
theorem c9_result_keys (env : List String) (url : String)
    (net : Request → FetchOutcome) (parse : String → Soup)
    (nlp : String → List Entity) (config : Config)
    (hlog : "logger" ∈ env) (html : String)
    (hnet : net (theRequest url) = .success html) :
    ∃ d : InfoDict, (extract_info env url net parse nlp config).1 = .ok d
      ∧ d.keys = ["content", "metadata", "company_names"]
      ∧ ∃ m, d.metadata = some m ∧ m.map Prod.fst = config.metadata.map Prod.fst := by
  refine ⟨{ error := none, content := some (article_content (parse html) config),
            metadata := some (metadata_of (parse html) config),
            company_names := some (org_texts nlp (article_content (parse html) config)).dedup },
          by simp [extract_info, hlog, hnet], by simp [InfoDict.keys],
          metadata_of (parse html) config, rfl, ?_⟩
  simp [metadata_of]

/-- Witness for C9 on the sample fixtures. -/
theorem c9_result_keys_witness :
    ∃ d : InfoDict,
      (extract_info ["logger"] "u" sampleNet sampleParse sampleNlp sampleConfig).1 = .ok d
      ∧ d.keys = ["content", "metadata", "company_names"]
      ∧ ∃ m, d.metadata = some m
          ∧ m.map Prod.fst = sampleConfig.metadata.map Prod.fst :=
  c9_result_keys ["logger"] "u" sampleNet sampleParse sampleNlp sampleConfig
    (by decide) "<html>" rfl

/-- Claim C7: fed an error-shaped result (only key `"error"`), `write_to_file`
fails with an uncaught `KeyError`; the driver guards against this — whenever
the fetch fails, it prints the dictionary and the error message and never calls
`write_to_file`, writing nothing. -/
theorem c7_error_result_guard (net : Request → FetchOutcome) (parse : String → Soup)
    (nlp : String → List Entity) (io : IOOutcome) (msg : String)
    (hfail : ∀ html, net (theRequest main_url) ≠ .success html) :
    (errorDict msg).keys = ["error"]
    ∧ write_to_file (errorDict msg) .ok = .error (.keyError "company_names")
    ∧ ∃ emsg, main_driver net parse nlp io =
        .ok { printed := [.infoDict (errorDict emsg), .msg emsg],
              written := none, calledWrite := false } := by
  refine ⟨by simp [errorDict, InfoDict.keys], rfl, ?_⟩
  cases h : net (theRequest main_url) with
  | success html => exact absurd h (hfail html)
  | httpError m =>
    exact ⟨"HTTP error occurred: " ++ m,
      by simp [main_driver, extract_info, h, errorDict, mainEnv, moduleEnv]⟩
  | timeoutError m =>
    exact ⟨"Timeout error: " ++ m,
      by simp [main_driver, extract_info, h, errorDict, mainEnv, moduleEnv]⟩
  | connectionError m =>
    exact ⟨"Connection error: " ++ m,
      by simp [main_driver, extract_info, h, errorDict, mainEnv, moduleEnv]⟩
  | otherError m =>
    exact ⟨"An error occurred: " ++ m,
      by simp [main_driver, extract_info, h, errorDict, mainEnv, moduleEnv]⟩

/-- Witness for C7 on a connection failure and a writable path. -/
theorem c7_error_result_guard_witness :
    (errorDict "boom").keys = ["error"]
    ∧ write_to_file (errorDict "boom") .ok = .error (.keyError "company_names")
    ∧ ∃ emsg, main_driver failNet sampleParse sampleNlp .ok =
        .ok { printed := [.infoDict (errorDict emsg), .msg emsg],
              written := none, calledWrite := false } :=
  c7_error_result_guard failNet sampleParse sampleNlp .ok "boom"
    (fun html h => by simp [failNet] at h)

end NasdaqWebScraper
